import Mathlib

/-!
# Verification of the libwebauthn CTAP2 core

A shallow embedding of the CTAP2 protocol layer, the `GetInfo` model with
user-verification method selection, canonical CBOR (de)serialization of
credential types, and the caBLE known-device store, translated from the
Rust sources under `src/libwebauthn/src`, together with theorems checking
the natural-language specification against them.

Conventions: Rust `u8`/`u32` become `Nat` (byte values are constrained by
hypotheses `b < 256` where they matter); `Vec<u8>`/`ByteBuf` become
`List Nat`; `HashMap<K, V>` becomes an association list with first-match
lookup; fallible code returns `Option`/`Except`; a Rust `assert!` failure
is an explicit `assertionFailure` outcome.
-/

namespace LibWebAuthn

/-- CTAP2 command codes, from `Ctap2CommandCode` in `proto/ctap2/model.rs`. -/
inductive Ctap2CommandCode
  | AuthenticatorMakeCredential
  | AuthenticatorGetAssertion
  | AuthenticatorGetInfo
  | AuthenticatorClientPin
  | AuthenticatorGetNextAssertion
  | AuthenticatorBioEnrollment
  | AuthenticatorBioEnrollmentPreview
  | AuthenticatorCredentialManagement
  | AuthenticatorCredentialManagementPreview
  | AuthenticatorSelection
  | AuthenticatorConfig
  deriving DecidableEq, Repr

/-- The `#[repr(u8)]` discriminants of `Ctap2CommandCode`. -/
def Ctap2CommandCode.code : Ctap2CommandCode → Nat
  | .AuthenticatorMakeCredential => 0x01
  | .AuthenticatorGetAssertion => 0x02
  | .AuthenticatorGetInfo => 0x04
  | .AuthenticatorClientPin => 0x06
  | .AuthenticatorGetNextAssertion => 0x08
  | .AuthenticatorBioEnrollment => 0x09
  | .AuthenticatorBioEnrollmentPreview => 0x40
  | .AuthenticatorCredentialManagement => 0x0A
  | .AuthenticatorCredentialManagementPreview => 0x41
  | .AuthenticatorSelection => 0x0B
  | .AuthenticatorConfig => 0x0D

/-- UV token acquisition operations, from `Ctap2UserVerificationOperation`
in `proto/ctap2/model.rs`. -/
inductive Ctap2UserVerificationOperation
  | GetPinUvAuthTokenUsingUvWithPermissions
  | GetPinUvAuthTokenUsingPinWithPermissions
  | GetPinToken
  | None
  deriving DecidableEq, Repr

/-- COSE algorithm identifiers, from `Ctap2COSEAlgorithmIdentifier` in
`proto/ctap2/model.rs`; `Unknown` is the `#[serde(other)]` sentinel. -/
inductive Ctap2COSEAlgorithmIdentifier
  | ES256
  | EDDSA
  | TOPT
  | Unknown
  deriving DecidableEq, Repr

/-- The `#[repr(i32)]` discriminants of `Ctap2COSEAlgorithmIdentifier`
(`ES256 = -7`, `EDDSA = -8`, `TOPT = -9`, `Unknown = -999`). -/
def Ctap2COSEAlgorithmIdentifier.code : Ctap2COSEAlgorithmIdentifier → Int
  | .ES256 => -7
  | .EDDSA => -8
  | .TOPT => -9
  | .Unknown => -999

/-- Credential types, from `Ctap2PublicKeyCredentialType` in
`proto/ctap2/model.rs`; `Unknown` is the `#[serde(other)]` sentinel. -/
inductive Ctap2PublicKeyCredentialType
  | PublicKey
  | Unknown
  deriving DecidableEq, Repr

/-- Credential type record, from `Ctap2CredentialType` in
`proto/ctap2/model.rs` (serde field names `alg` and `type`). -/
structure Ctap2CredentialType where
  algorithm : Ctap2COSEAlgorithmIdentifier
  public_key_type : Ctap2PublicKeyCredentialType
  deriving DecidableEq, Repr

/-- Rust `Default for Ctap2CredentialType`: ES256 public key. -/
def Ctap2CredentialType.default : Ctap2CredentialType :=
  { algorithm := .ES256, public_key_type := .PublicKey }

/-- Rust `Ctap2CredentialType::is_known`: both halves differ from `Unknown`. -/
def Ctap2CredentialType.is_known (self : Ctap2CredentialType) : Bool :=
  self.algorithm ≠ Ctap2COSEAlgorithmIdentifier.Unknown &&
    self.public_key_type ≠ Ctap2PublicKeyCredentialType.Unknown

/-- The `GetInfo` response record, from `Ctap2GetInfoResponse` in
`proto/ctap2/model/get_info.rs`. `HashMap<String, bool>` is modelled as an
association list with first-match lookup. -/
structure Ctap2GetInfoResponse where
  versions : List String
  extensions : Option (List String)
  aaguid : List Nat
  options : Option (List (String × Bool))
  max_msg_size : Option Nat
  pin_auth_protos : Option (List Nat)
  max_credential_count : Option Nat
  max_credential_id_length : Option Nat
  transports : Option (List String)
  algorithms : Option (List Ctap2CredentialType)
  max_blob_array : Option Nat
  force_pin_change : Option Bool
  min_pin_length : Option Nat
  firmware_version : Option Nat
  max_cred_blob_length : Option Nat
  max_rpids_for_setminpinlength : Option Nat
  preferred_platform_uv_attempts : Option Nat
  uv_modality : Option Nat
  certifications : Option (List (String × Nat))
  remaining_discoverable_creds : Option Nat
  vendor_proto_config_cmds : Option (List Nat)
  attestation_formats : Option (List String)
  uv_count_since_last_pin_entry : Option Nat
  long_touch_for_reset : Option Bool
  enc_identifier : Option (List Nat)
  transports_for_reset : Option (List String)
  pin_complexity_policy : Option Bool
  pin_complexity_policy_url : Option (List Nat)
  max_pin_length : Option Nat

/-- Rust `Ctap2GetInfoResponse::option_enabled`: the option map is present and
maps `name` to `true`. -/
def Ctap2GetInfoResponse.option_enabled (self : Ctap2GetInfoResponse)
    (name : String) : Bool :=
  match self.options with
  | none => false
  | some options => options.lookup name == some true

/-- Rust `Ctap2GetInfoResponse::supports_fido_2_1`. -/
def Ctap2GetInfoResponse.supports_fido_2_1 (self : Ctap2GetInfoResponse) : Bool :=
  self.versions.any (· == "FIDO_2_1")

/-- Rust `Ctap2GetInfoResponse::is_uv_protected`: `uv`, or `clientPin`, or
`pinUvAuthToken && uv`. -/
def Ctap2GetInfoResponse.is_uv_protected (self : Ctap2GetInfoResponse) : Bool :=
  self.option_enabled "uv" ||
    self.option_enabled "clientPin" ||
    (self.option_enabled "pinUvAuthToken" && self.option_enabled "uv")

/-- Outcome of a Rust function that may fail an `assert!`. -/
inductive UvOperationResult
  | ok (result : Option Ctap2UserVerificationOperation)
  | assertionFailure
  deriving DecidableEq, Repr

/-- Rust `Ctap2GetInfoResponse::uv_operation` from
`proto/ctap2/model/get_info.rs`, with the `assert!(clientPin)` on the
pinUvAuthToken-without-uv path made explicit as `assertionFailure`. -/
def Ctap2GetInfoResponse.uv_operation (self : Ctap2GetInfoResponse)
    (uv_blocked : Bool) : UvOperationResult :=
  if self.option_enabled "uv" && !uv_blocked then
    if self.option_enabled "pinUvAuthToken" then
      .ok (some .GetPinUvAuthTokenUsingUvWithPermissions)
    else
      .ok (some .None)
  else
    if self.option_enabled "pinUvAuthToken" then
      if self.option_enabled "clientPin" then
        .ok (some .GetPinUvAuthTokenUsingPinWithPermissions)
      else
        .assertionFailure
    else if self.option_enabled "clientPin" then
      .ok (some .GetPinToken)
    else
      .ok none

/-- The §4.4.1 method-selection table, written from the specification's
pseudocode (not from the source), for comparison with `uv_operation`. -/
def uv_operation_spec (uv pinUvAuthToken clientPin uv_blocked : Bool) :
    Option Ctap2UserVerificationOperation :=
  if uv && !uv_blocked then
    if pinUvAuthToken then some .GetPinUvAuthTokenUsingUvWithPermissions
    else some .None
  else
    if pinUvAuthToken then some .GetPinUvAuthTokenUsingPinWithPermissions
    else if clientPin then some .GetPinToken
    else none

/-- A `GetInfo` response whose only populated optional field is the option
map; used to instantiate theorems at concrete inputs. -/
def infoWithOptions (opts : List (String × Bool)) : Ctap2GetInfoResponse where
  versions := ["FIDO_2_1"]
  extensions := none
  aaguid := List.replicate 16 0
  options := some opts
  max_msg_size := none
  pin_auth_protos := none
  max_credential_count := none
  max_credential_id_length := none
  transports := none
  algorithms := none
  max_blob_array := none
  force_pin_change := none
  min_pin_length := none
  firmware_version := none
  max_cred_blob_length := none
  max_rpids_for_setminpinlength := none
  preferred_platform_uv_attempts := none
  uv_modality := none
  certifications := none
  remaining_discoverable_creds := none
  vendor_proto_config_cmds := none
  attestation_formats := none
  uv_count_since_last_pin_entry := none
  long_touch_for_reset := none
  enc_identifier := none
  transports_for_reset := none
  pin_complexity_policy := none
  pin_complexity_policy_url := none
  max_pin_length := none

/-- Transport-level errors, from `TransportError` in the spec's §7 taxonomy
(the `transport/error.rs` file is not under `src/`). -/
inductive TransportError
  | Timeout
  | Disconnected
  | InvalidFraming
  | InvalidState
  | TransportUnavailable
  deriving DecidableEq, Repr

/-- Platform-level errors, from the spec's §7 taxonomy. -/
inductive PlatformError
  | InvalidDeviceResponse
  | UnsupportedFeature
  deriving DecidableEq, Repr

/-- A CTAP status byte; `CtapError::Ok` is status `0x00`. The protocol
layer only distinguishes `Ok` from everything else and carries the raw
status through otherwise, so the full enum is modelled by its byte. -/
structure CtapError where
  code : Nat
  deriving DecidableEq, Repr

/-- The `Ok` status (`0x00`). -/
def CtapError.Ok : CtapError := ⟨0x00⟩

/-- The caller-facing error union, from `Error` in `webauthn/error.rs`
(per the spec's §6 error surfaces; that file is not under `src/`). -/
inductive Error
  | Ctap (e : CtapError)
  | Transport (e : TransportError)
  | Platform (e : PlatformError)
  deriving DecidableEq, Repr

/-- A framed CBOR request: command byte plus encoded parameter map, per
the spec's §6 wire format. The CBOR serialization of each request struct
(the crate's `cbor` module, not under `src/`) is abstracted as the
already-encoded payload bytes. -/
structure CborRequest where
  command : Ctap2CommandCode
  payload : List Nat
  deriving DecidableEq, Repr

/-- Rust `CborRequest::new`: a request with no parameters. -/
def CborRequest.new (command : Ctap2CommandCode) : CborRequest :=
  { command := command, payload := [] }

/-- A framed CBOR response: status byte plus optional body, as consumed by
`protocol.rs` (`cbor_response.status_code`, `cbor_response.data`). -/
structure CborResponse where
  status_code : CtapError
  data : Option (List Nat)
  deriving DecidableEq, Repr

/-- One observable channel interaction: which call was made and which
timeout (in milliseconds) was passed to it. -/
inductive ChanEvent
  | send (command : Ctap2CommandCode) (timeout_ms : Nat)
  | recv (timeout_ms : Nat)
  deriving DecidableEq, Repr

/-- The timeout a channel interaction was given. -/
def ChanEvent.timeout : ChanEvent → Nat
  | .send _ t => t
  | .recv t => t

/-- A deterministic model of one request/response exchange on a `Channel`:
the outcome `cbor_send` would produce and the outcome `cbor_recv` would
produce (the spec's §4.1 contract; the transport implementation is not
under `src/`). -/
structure ChannelModel where
  send_result : Except TransportError Unit
  recv_result : Except TransportError CborResponse

/-- Rust `cbor_send` against the channel model, recording the timeout passed. -/
def cbor_send (chan : ChannelModel) (request : CborRequest) (timeout : Nat) :
    Except TransportError Unit × ChanEvent :=
  (chan.send_result, .send request.command timeout)

/-- Rust `cbor_recv` against the channel model, recording the timeout passed. -/
def cbor_recv (chan : ChannelModel) (timeout : Nat) :
    Except TransportError CborResponse × ChanEvent :=
  (chan.recv_result, .recv timeout)

/-- Rust `TIMEOUT_GET_INFO` from `protocol.rs`: 250 milliseconds. -/
def TIMEOUT_GET_INFO : Nat := 250

/-- Modelled from the spec: `Ctap2MakeCredentialResponse` (its file
`model/make_credential.rs` is not under `src/`). The protocol layer only
passes the decoded value through, so the attestation fields are summarized
by their §3 shape. -/
structure Ctap2MakeCredentialResponse where
  format : String
  authenticator_data : List Nat
  attestation_statement : List Nat
  deriving DecidableEq, Repr

/-- Modelled from the spec: `Ctap2GetAssertionResponse` (its file
`model/get_assertion.rs` is not under `src/`); fields summarized per §3. -/
structure Ctap2GetAssertionResponse where
  credential_id : Option (List Nat)
  authenticator_data : List Nat
  signature : List Nat
  deriving DecidableEq, Repr

/-- Modelled from the spec: `Ctap2ClientPinResponse` (its file
`model/client_pin.rs` is not under `src/`). All fields are optional, per
§4.4.3 (key agreement, token, `pinRetries`, `uvRetries`). -/
structure Ctap2ClientPinResponse where
  key_agreement : Option (List Nat)
  pin_uv_auth_token : Option (List Nat)
  pin_retries : Option Nat
  uv_retries : Option Nat
  deriving DecidableEq, Repr

/-- Modelled from the spec: `Ctap2ClientPinResponse::default()` — every
optional field absent. -/
def Ctap2ClientPinResponse.default : Ctap2ClientPinResponse :=
  { key_agreement := none, pin_uv_auth_token := none,
    pin_retries := none, uv_retries := none }

/-- Modelled from the spec: `Ctap2BioEnrollmentResponse` (its file
`model/bio_enrollment.rs` is not under `src/`); all fields optional. -/
structure Ctap2BioEnrollmentResponse where
  modality : Option Nat
  fingerprint_kind : Option Nat
  template_infos : Option (List (List Nat × String))
  deriving DecidableEq, Repr

/-- Modelled from the spec: `Ctap2BioEnrollmentResponse::default()` —
every optional field absent. -/
def Ctap2BioEnrollmentResponse.default : Ctap2BioEnrollmentResponse :=
  { modality := none, fingerprint_kind := none, template_infos := none }

/-- Modelled from the spec: `Ctap2CredentialManagementResponse` (its file
`model/credential_management.rs` is not under `src/`); all fields
optional. -/
structure Ctap2CredentialManagementResponse where
  existing_resident_credentials_count : Option Nat
  max_possible_remaining_credentials_count : Option Nat
  credential_id : Option (List Nat)
  deriving DecidableEq, Repr

/-- Modelled from the spec: `Ctap2CredentialManagementResponse::default()`
— every optional field absent. -/
def Ctap2CredentialManagementResponse.default : Ctap2CredentialManagementResponse :=
  { existing_resident_credentials_count := none,
    max_possible_remaining_credentials_count := none, credential_id := none }

/-- Modelled from the spec: a request envelope (§3) for a parameterized
command; the struct's canonical CBOR serialization (the crate's `cbor`
module, not under `src/`) is abstracted as its encoded payload bytes. -/
structure Ctap2MakeCredentialRequest where
  payload : List Nat
  deriving DecidableEq, Repr

/-- The `From<&Ctap2MakeCredentialRequest> for CborRequest` conversion. -/
def Ctap2MakeCredentialRequest.into (r : Ctap2MakeCredentialRequest) : CborRequest :=
  { command := .AuthenticatorMakeCredential, payload := r.payload }

/-- Modelled from the spec: request envelope for `getAssertion` (§3). -/
structure Ctap2GetAssertionRequest where
  payload : List Nat
  deriving DecidableEq, Repr

/-- The `From<&Ctap2GetAssertionRequest> for CborRequest` conversion. -/
def Ctap2GetAssertionRequest.into (r : Ctap2GetAssertionRequest) : CborRequest :=
  { command := .AuthenticatorGetAssertion, payload := r.payload }

/-- Modelled from the spec: request envelope for `clientPin` (§3). -/
structure Ctap2ClientPinRequest where
  payload : List Nat
  deriving DecidableEq, Repr

/-- The `From<&Ctap2ClientPinRequest> for CborRequest` conversion. -/
def Ctap2ClientPinRequest.into (r : Ctap2ClientPinRequest) : CborRequest :=
  { command := .AuthenticatorClientPin, payload := r.payload }

/-- Modelled from the spec: request envelope for `authenticatorConfig`. -/
structure Ctap2AuthenticatorConfigRequest where
  payload : List Nat
  deriving DecidableEq, Repr

/-- The `From<&Ctap2AuthenticatorConfigRequest> for CborRequest` conversion. -/
def Ctap2AuthenticatorConfigRequest.into (r : Ctap2AuthenticatorConfigRequest) :
    CborRequest :=
  { command := .AuthenticatorConfig, payload := r.payload }

/-- Modelled from the spec: request envelope for `bioEnrollment`. -/
structure Ctap2BioEnrollmentRequest where
  payload : List Nat
  deriving DecidableEq, Repr

/-- The `From<&Ctap2BioEnrollmentRequest> for CborRequest` conversion. -/
def Ctap2BioEnrollmentRequest.into (r : Ctap2BioEnrollmentRequest) : CborRequest :=
  { command := .AuthenticatorBioEnrollment, payload := r.payload }

/-- Modelled from the spec: request envelope for `credentialManagement`. -/
structure Ctap2CredentialManagementRequest where
  payload : List Nat
  deriving DecidableEq, Repr

/-- The `From<&Ctap2CredentialManagementRequest> for CborRequest` conversion. -/
def Ctap2CredentialManagementRequest.into (r : Ctap2CredentialManagementRequest) :
    CborRequest :=
  { command := .AuthenticatorCredentialManagement, payload := r.payload }

/-- Rust `ctap2_get_info` from `protocol.rs`: send `GetInfo` and receive with
the fixed `TIMEOUT_GET_INFO`; non-Ok status is `Error::Ctap`; a missing
body (`unwrap_field!`) or a failed parse (`parse_cbor!`) is
`Platform::InvalidDeviceResponse`. `decode` stands for
`cbor::from_slice::<Ctap2GetInfoResponse>`. -/
def ctap2_get_info (chan : ChannelModel)
    (decode : List Nat → Option Ctap2GetInfoResponse) :
    Except Error Ctap2GetInfoResponse × List ChanEvent :=
  let cbor_request := CborRequest.new .AuthenticatorGetInfo
  let (sent, ev1) := cbor_send chan cbor_request TIMEOUT_GET_INFO
  match sent with
  | .error e => (.error (.Transport e), [ev1])
  | .ok _ =>
    let (received, ev2) := cbor_recv chan TIMEOUT_GET_INFO
    match received with
    | .error e => (.error (.Transport e), [ev1, ev2])
    | .ok cbor_response =>
      if cbor_response.status_code = CtapError.Ok then
        match cbor_response.data with
        | none => (.error (.Platform .InvalidDeviceResponse), [ev1, ev2])
        | some data =>
          match decode data with
          | none => (.error (.Platform .InvalidDeviceResponse), [ev1, ev2])
          | some ctap_response => (.ok ctap_response, [ev1, ev2])
      else
        (.error (.Ctap cbor_response.status_code), [ev1, ev2])

/-- Rust `ctap2_make_credential` from `protocol.rs`: status check, then
`unwrap_field!`, then `parse_cbor!`. -/
def ctap2_make_credential (chan : ChannelModel)
    (decode : List Nat → Option Ctap2MakeCredentialResponse)
    (request : Ctap2MakeCredentialRequest) (timeout : Nat) :
    Except Error Ctap2MakeCredentialResponse × List ChanEvent :=
  let (sent, ev1) := cbor_send chan request.into timeout
  match sent with
  | .error e => (.error (.Transport e), [ev1])
  | .ok _ =>
    let (received, ev2) := cbor_recv chan timeout
    match received with
    | .error e => (.error (.Transport e), [ev1, ev2])
    | .ok cbor_response =>
      if cbor_response.status_code = CtapError.Ok then
        match cbor_response.data with
        | none => (.error (.Platform .InvalidDeviceResponse), [ev1, ev2])
        | some data =>
          match decode data with
          | none => (.error (.Platform .InvalidDeviceResponse), [ev1, ev2])
          | some ctap_response => (.ok ctap_response, [ev1, ev2])
      else
        (.error (.Ctap cbor_response.status_code), [ev1, ev2])

/-- Rust `ctap2_get_assertion` from `protocol.rs`: same template as
`ctap2_make_credential`. -/
def ctap2_get_assertion (chan : ChannelModel)
    (decode : List Nat → Option Ctap2GetAssertionResponse)
    (request : Ctap2GetAssertionRequest) (timeout : Nat) :
    Except Error Ctap2GetAssertionResponse × List ChanEvent :=
  let (sent, ev1) := cbor_send chan request.into timeout
  match sent with
  | .error e => (.error (.Transport e), [ev1])
  | .ok _ =>
    let (received, ev2) := cbor_recv chan timeout
    match received with
    | .error e => (.error (.Transport e), [ev1, ev2])
    | .ok cbor_response =>
      if cbor_response.status_code = CtapError.Ok then
        match cbor_response.data with
        | none => (.error (.Platform .InvalidDeviceResponse), [ev1, ev2])
        | some data =>
          match decode data with
          | none => (.error (.Platform .InvalidDeviceResponse), [ev1, ev2])
          | some ctap_response => (.ok ctap_response, [ev1, ev2])
      else
        (.error (.Ctap cbor_response.status_code), [ev1, ev2])

/-- Rust `ctap2_get_next_assertion` from `protocol.rs`, translated exactly as
written: after `cbor_recv` it goes straight to `unwrap_field!` and
`parse_cbor!` with NO check of `cbor_response.status_code`. -/
def ctap2_get_next_assertion (chan : ChannelModel)
    (decode : List Nat → Option Ctap2GetAssertionResponse)
    (timeout : Nat) :
    Except Error Ctap2GetAssertionResponse × List ChanEvent :=
  let cbor_request := CborRequest.new .AuthenticatorGetNextAssertion
  let (sent, ev1) := cbor_send chan cbor_request timeout
  match sent with
  | .error e => (.error (.Transport e), [ev1])
  | .ok _ =>
    let (received, ev2) := cbor_recv chan timeout
    match received with
    | .error e => (.error (.Transport e), [ev1, ev2])
    | .ok cbor_response =>
      match cbor_response.data with
      | none => (.error (.Platform .InvalidDeviceResponse), [ev1, ev2])
      | some data =>
        match decode data with
        | none => (.error (.Platform .InvalidDeviceResponse), [ev1, ev2])
        | some ctap_response => (.ok ctap_response, [ev1, ev2])

/-- Rust `ctap2_selection` from `protocol.rs`: unit on Ok, `Error::Ctap`
otherwise; the body is never touched. -/
def ctap2_selection (chan : ChannelModel) (timeout : Nat) :
    Except Error Unit × List ChanEvent :=
  let cbor_request := CborRequest.new .AuthenticatorSelection
  let (sent, ev1) := cbor_send chan cbor_request timeout
  match sent with
  | .error e => (.error (.Transport e), [ev1])
  | .ok _ =>
    let (received, ev2) := cbor_recv chan timeout
    match received with
    | .error e => (.error (.Transport e), [ev1, ev2])
    | .ok cbor_response =>
      if cbor_response.status_code = CtapError.Ok then
        (.ok (), [ev1, ev2])
      else
        (.error (.Ctap cbor_response.status_code), [ev1, ev2])

/-- Rust `ctap2_authenticator_config` from `protocol.rs`: unit on Ok,
`Error::Ctap` otherwise; the body is never touched. -/
def ctap2_authenticator_config (chan : ChannelModel)
    (request : Ctap2AuthenticatorConfigRequest) (timeout : Nat) :
    Except Error Unit × List ChanEvent :=
  let (sent, ev1) := cbor_send chan request.into timeout
  match sent with
  | .error e => (.error (.Transport e), [ev1])
  | .ok _ =>
    let (received, ev2) := cbor_recv chan timeout
    match received with
    | .error e => (.error (.Transport e), [ev1, ev2])
    | .ok cbor_response =>
      if cbor_response.status_code = CtapError.Ok then
        (.ok (), [ev1, ev2])
      else
        (.error (.Ctap cbor_response.status_code), [ev1, ev2])

/-- Rust `ctap2_client_pin` from `protocol.rs`: status check, then
`if let Some(data)` — a present body is parsed (`parse_cbor!`), an absent
body yields `Ctap2ClientPinResponse::default()`. -/
def ctap2_client_pin (chan : ChannelModel)
    (decode : List Nat → Option Ctap2ClientPinResponse)
    (request : Ctap2ClientPinRequest) (timeout : Nat) :
    Except Error Ctap2ClientPinResponse × List ChanEvent :=
  let (sent, ev1) := cbor_send chan request.into timeout
  match sent with
  | .error e => (.error (.Transport e), [ev1])
  | .ok _ =>
    let (received, ev2) := cbor_recv chan timeout
    match received with
    | .error e => (.error (.Transport e), [ev1, ev2])
    | .ok cbor_response =>
      if cbor_response.status_code = CtapError.Ok then
        match cbor_response.data with
        | some data =>
          match decode data with
          | none => (.error (.Platform .InvalidDeviceResponse), [ev1, ev2])
          | some ctap_response => (.ok ctap_response, [ev1, ev2])
        | none => (.ok Ctap2ClientPinResponse.default, [ev1, ev2])
      else
        (.error (.Ctap cbor_response.status_code), [ev1, ev2])

/-- Rust `ctap2_bio_enrollment` from `protocol.rs`: status check, then a
present body is parsed and an absent body yields
`Ctap2BioEnrollmentResponse::default()`. -/
def ctap2_bio_enrollment (chan : ChannelModel)
    (decode : List Nat → Option Ctap2BioEnrollmentResponse)
    (request : Ctap2BioEnrollmentRequest) (timeout : Nat) :
    Except Error Ctap2BioEnrollmentResponse × List ChanEvent :=
  let (sent, ev1) := cbor_send chan request.into timeout
  match sent with
  | .error e => (.error (.Transport e), [ev1])
  | .ok _ =>
    let (received, ev2) := cbor_recv chan timeout
    match received with
    | .error e => (.error (.Transport e), [ev1, ev2])
    | .ok cbor_response =>
      if cbor_response.status_code = CtapError.Ok then
        match cbor_response.data with
        | some data =>
          match decode data with
          | none => (.error (.Platform .InvalidDeviceResponse), [ev1, ev2])
          | some ctap_response => (.ok ctap_response, [ev1, ev2])
        | none => (.ok Ctap2BioEnrollmentResponse.default, [ev1, ev2])
      else
        (.error (.Ctap cbor_response.status_code), [ev1, ev2])

/-- Rust `ctap2_credential_management` from `protocol.rs`: status check, then a
present body is parsed and an absent body yields
`Ctap2CredentialManagementResponse::default()`. -/
def ctap2_credential_management (chan : ChannelModel)
    (decode : List Nat → Option Ctap2CredentialManagementResponse)
    (request : Ctap2CredentialManagementRequest) (timeout : Nat) :
    Except Error Ctap2CredentialManagementResponse × List ChanEvent :=
  let (sent, ev1) := cbor_send chan request.into timeout
  match sent with
  | .error e => (.error (.Transport e), [ev1])
  | .ok _ =>
    let (received, ev2) := cbor_recv chan timeout
    match received with
    | .error e => (.error (.Transport e), [ev1, ev2])
    | .ok cbor_response =>
      if cbor_response.status_code = CtapError.Ok then
        match cbor_response.data with
        | some data =>
          match decode data with
          | none => (.error (.Platform .InvalidDeviceResponse), [ev1, ev2])
          | some ctap_response => (.ok ctap_response, [ev1, ev2])
        | none => (.ok Ctap2CredentialManagementResponse.default, [ev1, ev2])
      else
        (.error (.Ctap cbor_response.status_code), [ev1, ev2])

/-- A CBOR scalar as needed by `Ctap2CredentialType`: an integer or a
text string. -/
inductive CborVal
  | int (i : Int)
  | text (t : String)
  deriving DecidableEq, Repr

/-- Modelled from the spec: the CBOR head for major type `major` with
argument `n`, using the shortest (canonical) length form (§4.2; the
crate's `cbor` module is not under `src/`). -/
def cborEncodeHead (major : Nat) (n : Nat) : List Nat :=
  if n < 24 then [major * 32 + n]
  else if n < 2 ^ 8 then [major * 32 + 24, n]
  else if n < 2 ^ 16 then [major * 32 + 25, n / 2 ^ 8 % 256, n % 256]
  else if n < 2 ^ 32 then
    [major * 32 + 26, n / 2 ^ 24 % 256, n / 2 ^ 16 % 256, n / 2 ^ 8 % 256, n % 256]
  else
    [major * 32 + 27, n / 2 ^ 56 % 256, n / 2 ^ 48 % 256, n / 2 ^ 40 % 256,
      n / 2 ^ 32 % 256, n / 2 ^ 24 % 256, n / 2 ^ 16 % 256, n / 2 ^ 8 % 256, n % 256]

/-- The UTF-8 bytes of one code point. -/
def utf8Bytes (c : Nat) : List Nat :=
  if c < 0x80 then [c]
  else if c < 0x800 then [0xC0 + c / 64, 0x80 + c % 64]
  else if c < 0x10000 then [0xE0 + c / 4096, 0x80 + c / 64 % 64, 0x80 + c % 64]
  else [0xF0 + c / 262144, 0x80 + c / 4096 % 64, 0x80 + c / 64 % 64, 0x80 + c % 64]

/-- The UTF-8 bytes of a string. -/
def stringUtf8 (s : String) : List Nat :=
  s.data.flatMap (fun ch => utf8Bytes ch.toNat)

/-- Modelled from the spec: canonical CBOR encoding of an integer (major
type 0 for `n ≥ 0`, major type 1 with argument `-1 - n` otherwise),
shortest form (§4.2). -/
def cborEncodeInt (i : Int) : List Nat :=
  if 0 ≤ i then cborEncodeHead 0 i.toNat
  else cborEncodeHead 1 (-(i + 1)).toNat

/-- Modelled from the spec: canonical CBOR encoding of a text string
(major type 3). -/
def cborEncodeText (s : String) : List Nat :=
  cborEncodeHead 3 (stringUtf8 s).length ++ stringUtf8 s

/-- Canonical CBOR encoding of a scalar value. -/
def cborEncodeVal : CborVal → List Nat
  | .int i => cborEncodeInt i
  | .text t => cborEncodeText t

/-- Canonical CTAP ordering on text map keys: length first, then
lexicographic (§4.2). -/
def keyLe (a b : String) : Bool :=
  decide (a.length < b.length) || (a.length == b.length && decide (a ≤ b))

/-- Insertion step of the canonical key sort. -/
def insertEntryCanonical (e : String × CborVal) :
    List (String × CborVal) → List (String × CborVal)
  | [] => [e]
  | f :: rest =>
    if keyLe e.1 f.1 then e :: f :: rest else f :: insertEntryCanonical e rest

/-- Sort map entries into canonical CTAP key order. -/
def sortEntriesCanonical : List (String × CborVal) → List (String × CborVal)
  | [] => []
  | e :: rest => insertEntryCanonical e (sortEntriesCanonical rest)

/-- Modelled from the spec: canonical CBOR encoding of a string-keyed map
(major type 5), entries in ascending canonical key order (§4.2). -/
def cborEncodeTextMap (entries : List (String × CborVal)) : List Nat :=
  cborEncodeHead 5 entries.length ++
    (sortEntriesCanonical entries).flatMap
      (fun e => cborEncodeText e.1 ++ cborEncodeVal e.2)

/-- The serde serialization of `Ctap2PublicKeyCredentialType`:
`PublicKey` is renamed `"public-key"`; the derived serializer emits the
bare variant name for `Unknown`. -/
def Ctap2PublicKeyCredentialType.serializedName :
    Ctap2PublicKeyCredentialType → String
  | .PublicKey => "public-key"
  | .Unknown => "Unknown"

/-- CBOR serialization of `Ctap2CredentialType` via the crate's canonical
serializer: a map `{"alg": <i32 discriminant>, "type": <string>}` (serde
renames in `model.rs`), emitted in canonical key order. -/
def Ctap2CredentialType.serialize (c : Ctap2CredentialType) : List Nat :=
  cborEncodeTextMap
    [("alg", .int c.algorithm.code), ("type", .text c.public_key_type.serializedName)]

/-- Modelled from the spec: read one CBOR head, returning
`(major, argument, rest)`; length forms 0–27 in canonical use. -/
def readHead : List Nat → Option (Nat × Nat × List Nat)
  | [] => none
  | b :: rest =>
    let major := b / 32
    let ai := b % 32
    if ai < 24 then some (major, ai, rest)
    else if ai == 24 then
      match rest with
      | v :: r => some (major, v, r)
      | [] => none
    else if ai == 25 then
      match rest with
      | v1 :: v2 :: r => some (major, v1 * 256 + v2, r)
      | _ => none
    else if ai == 26 then
      match rest with
      | v1 :: v2 :: v3 :: v4 :: r =>
        some (major, ((v1 * 256 + v2) * 256 + v3) * 256 + v4, r)
      | _ => none
    else none

/-- Decode a list of ASCII bytes into a string (the credential-type maps
decoded by the claims are all ASCII). -/
def bytesToAscii (bs : List Nat) : Option String :=
  if bs.all (· < 128) then some ⟨bs.map Char.ofNat⟩ else none

/-- Modelled from the spec: read one CBOR scalar (unsigned or negative
integer, or text string). -/
def readValue (bs : List Nat) : Option (CborVal × List Nat) :=
  match readHead bs with
  | some (0, n, rest) => some (.int n, rest)
  | some (1, n, rest) => some (.int (-(1 + (n : Int))), rest)
  | some (3, n, rest) =>
    if rest.length < n then none
    else
      match bytesToAscii (rest.take n) with
      | some s => some (.text s, rest.drop n)
      | none => none
  | _ => none

/-- Read `n` map entries with text keys and scalar values. -/
def readEntries (n : Nat) (bs : List Nat) :
    Option (List (String × CborVal) × List Nat) :=
  match n with
  | 0 => some ([], bs)
  | m + 1 =>
    match readValue bs with
    | some (.text k, rest) =>
      match readValue rest with
      | some (v, rest2) =>
        match readEntries m rest2 with
        | some (es, rest3) => some ((k, v) :: es, rest3)
        | none => none
      | none => none
    | _ => none

/-- The `#[serde(other)]` fallback of `Ctap2COSEAlgorithmIdentifier` in
`model.rs`: the known discriminants decode to their variant, every other
integer decodes to `Unknown`. -/
def algFromInt (i : Int) : Ctap2COSEAlgorithmIdentifier :=
  if i = -7 then .ES256
  else if i = -8 then .EDDSA
  else if i = -9 then .TOPT
  else .Unknown

/-- The `#[serde(other)]` fallback of `Ctap2PublicKeyCredentialType` in
`model.rs`: `"public-key"` decodes to `PublicKey`, every other string to
`Unknown`. -/
def typeFromString (s : String) : Ctap2PublicKeyCredentialType :=
  if s = "public-key" then .PublicKey else .Unknown

/-- CBOR deserialization of `Ctap2CredentialType` (serde derive over the
crate's CBOR reader, which is not under `src/`, hence the reader is
modelled from the spec): a two-field string-keyed map with an integer
`"alg"` and a text `"type"`, each run through its `#[serde(other)]`
fallback. -/
def deserializeCredentialType (bytes : List Nat) : Option Ctap2CredentialType :=
  match readHead bytes with
  | some (5, n, rest) =>
    match readEntries n rest with
    | some (entries, remaining) =>
      if remaining.isEmpty then
        match entries.lookup "alg", entries.lookup "type" with
        | some (.int i), some (.text t) =>
          some { algorithm := algFromInt i, public_key_type := typeFromString t }
        | _, _ => none
      else none
    | none => none
  | _ => none

/-- One lowercase hexadecimal digit (`0`–`9`, `a`–`f`). -/
def hexDigit (n : Nat) : Char :=
  if n < 10 then Char.ofNat (48 + n) else Char.ofNat (87 + n)

/-- Modelled from the spec: `hex::encode` (the `hex` crate) — lowercase,
high nibble first, two digits per byte, bytes in order. -/
def hexEncode (bytes : List Nat) : String :=
  ⟨bytes.flatMap (fun b => [hexDigit (b / 16 % 16), hexDigit (b % 16)])⟩

/-- Modelled from the spec: `CableLinkingInfo` from
`transport/cable/tunnel.rs` (not under `src/`): the linking blob fields
named by §3 and by `CableKnownDeviceInfo::new`. -/
structure CableLinkingInfo where
  contact_id : List Nat
  link_id : List Nat
  link_secret : List Nat
  authenticator_public_key : List Nat
  authenticator_name : String
  deriving DecidableEq, Repr

/-- Rust `From<&CableLinkingInfo> for CableKnownDeviceId` in
`known_devices.rs`: `hex::encode(&linking_info.authenticator_public_key)`.
(`CableKnownDeviceId` is `String`.) -/
def CableKnownDeviceId.fromLinkingInfo (linking_info : CableLinkingInfo) : String :=
  hexEncode linking_info.authenticator_public_key

/-- Rust `CableKnownDeviceInfo` from `known_devices.rs`; the fixed-size arrays
become byte lists. -/
structure CableKnownDeviceInfo where
  contact_id : List Nat
  link_id : List Nat
  link_secret : List Nat
  public_key : List Nat
  name : String
  tunnel_domain : String
  deriving DecidableEq, Repr

/-- Rust `EphemeralDeviceInfoStore` from `known_devices.rs`; its
`HashMap<CableKnownDeviceId, CableKnownDeviceInfo>` is modelled as an
association list without duplicate keys kept in insertion-refreshed
order. -/
structure EphemeralDeviceInfoStore where
  known_devices : List (String × CableKnownDeviceInfo)
  deriving DecidableEq, Repr

/-- Rust `EphemeralDeviceInfoStore::new`: an empty map. -/
def EphemeralDeviceInfoStore.new : EphemeralDeviceInfoStore :=
  { known_devices := [] }

/-- Rust `put_known_device`: `HashMap::insert`, which replaces any entry with
the same key. -/
def EphemeralDeviceInfoStore.put_known_device (store : EphemeralDeviceInfoStore)
    (device_id : String) (device : CableKnownDeviceInfo) : EphemeralDeviceInfoStore :=
  { known_devices :=
      (device_id, device) :: store.known_devices.filter (fun e => e.1 != device_id) }

/-- Rust `delete_known_device`: `HashMap::remove`. -/
def EphemeralDeviceInfoStore.delete_known_device (store : EphemeralDeviceInfoStore)
    (device_id : String) : EphemeralDeviceInfoStore :=
  { known_devices := store.known_devices.filter (fun e => e.1 != device_id) }

/-- Rust `list_all`: every `(id, info)` pair currently stored. -/
def EphemeralDeviceInfoStore.list_all (store : EphemeralDeviceInfoStore) :
    List (String × CableKnownDeviceInfo) :=
  store.known_devices

/-- The spec's §8 example serialization bytes,
`a263616c672664747970656a7075626c69632d6b6579`. -/
def credTypeExampleBytes : List Nat :=
  [0xa2, 0x63, 0x61, 0x6c, 0x67, 0x26, 0x64, 0x74, 0x79, 0x70, 0x65,
   0x6a, 0x70, 0x75, 0x62, 0x6c, 0x69, 0x63, 0x2d, 0x6b, 0x65, 0x79]

/-- The spec's §8 unknown-algorithm bytes,
`a263616c67382964747970656a7075626c69632d6b6579` ({alg: -42,
type: "public-key"}). -/
def credTypeUnknownAlgBytes : List Nat :=
  [0xa2, 0x63, 0x61, 0x6c, 0x67, 0x38, 0x29, 0x64, 0x74, 0x79, 0x70, 0x65,
   0x6a, 0x70, 0x75, 0x62, 0x6c, 0x69, 0x63, 0x2d, 0x6b, 0x65, 0x79]

/-- C1: assuming clientPin is enabled whenever pinUvAuthToken is enabled
while uv is disabled or blocked, `uv_operation` returns (without failing
its assertion) exactly the operation of the §4.4.1 table, for every
combination of the four booleans. -/
theorem uv_operation_matches_table (info : Ctap2GetInfoResponse) (uv_blocked : Bool)
    (hreq : info.option_enabled "pinUvAuthToken" = true →
      (info.option_enabled "uv" = false ∨ uv_blocked = true) →
      info.option_enabled "clientPin" = true) :
    info.uv_operation uv_blocked =
      .ok (uv_operation_spec (info.option_enabled "uv")
        (info.option_enabled "pinUvAuthToken")
        (info.option_enabled "clientPin") uv_blocked) := by
  cases huv : info.option_enabled "uv" <;>
    cases htok : info.option_enabled "pinUvAuthToken" <;>
      cases hpin : info.option_enabled "clientPin" <;>
        cases hub : uv_blocked <;>
          simp_all [Ctap2GetInfoResponse.uv_operation, uv_operation_spec]

/-- Witness for C1 at a concrete `GetInfo` response with
`clientPin = pinUvAuthToken = true`, `uv` absent, not blocked. -/
theorem uv_operation_matches_table_witness :
    (infoWithOptions [("clientPin", true), ("pinUvAuthToken", true)]).uv_operation
        false =
      .ok (uv_operation_spec
        ((infoWithOptions [("clientPin", true), ("pinUvAuthToken", true)]).option_enabled
          "uv")
        ((infoWithOptions [("clientPin", true), ("pinUvAuthToken", true)]).option_enabled
          "pinUvAuthToken")
        ((infoWithOptions [("clientPin", true), ("pinUvAuthToken", true)]).option_enabled
          "clientPin")
        false) :=
  uv_operation_matches_table
    (infoWithOptions [("clientPin", true), ("pinUvAuthToken", true)]) false
    (by decide)

/-- C4: whenever pinUvAuthToken is enabled, clientPin is not, and uv is
disabled or blocked, `uv_operation` fails its `assert!` instead of
returning. -/
theorem uv_operation_assertion_failure (info : Ctap2GetInfoResponse)
    (uv_blocked : Bool)
    (htok : info.option_enabled "pinUvAuthToken" = true)
    (hpin : info.option_enabled "clientPin" = false)
    (huv : info.option_enabled "uv" = false ∨ uv_blocked = true) :
    info.uv_operation uv_blocked = .assertionFailure := by
  rcases huv with h | h <;>
    simp [Ctap2GetInfoResponse.uv_operation, htok, hpin, h]

/-- Witness for C4 at a concrete response with only
`pinUvAuthToken = true`. -/
theorem uv_operation_assertion_failure_witness :
    (infoWithOptions [("pinUvAuthToken", true)]).uv_operation false =
      .assertionFailure :=
  uv_operation_assertion_failure (infoWithOptions [("pinUvAuthToken", true)]) false
    (by decide) (by decide) (Or.inl (by decide))

/-- C9: `is_uv_protected` is true exactly when the `uv` option or the
`clientPin` option is enabled; the `pinUvAuthToken` conjunct is subsumed
and never affects the result. -/
theorem is_uv_protected_iff_uv_or_clientPin (info : Ctap2GetInfoResponse) :
    info.is_uv_protected =
      (info.option_enabled "uv" || info.option_enabled "clientPin") := by
  cases h1 : info.option_enabled "uv" <;>
    cases h2 : info.option_enabled "clientPin" <;>
      cases h3 : info.option_enabled "pinUvAuthToken" <;>
        simp [Ctap2GetInfoResponse.is_uv_protected, h1, h2, h3]

/-- Counterexample for C5: the §8 byte string is 22 bytes long, so the
serialization of `{alg: ES256, type: "public-key"}` does not consist of
20 bytes as the claim states. -/
theorem credential_type_serialization_not_20_bytes :
    ¬((Ctap2CredentialType.serialize
        { algorithm := .ES256, public_key_type := .PublicKey }).length = 20) := by
  decide

/-- C5 (amended): serializing `{alg: ES256 (-7), type: "public-key"}`
produces exactly the 22 bytes `a263616c672664747970656a7075626c69632d6b6579`
("alg" before "type" in length-then-lexicographic order, minimal integer
encoding). -/
theorem credential_type_serialization_canonical :
    Ctap2CredentialType.serialize
        { algorithm := .ES256, public_key_type := .PublicKey } =
      credTypeExampleBytes ∧
    credTypeExampleBytes.length = 22 := by
  decide

/-- C6: decoding `{alg: -42, type: "public-key"}` succeeds with the
`Unknown` algorithm sentinel (discriminant -999) and `PublicKey`; in
general every algorithm outside {-7, -8, -9} and every type string other
than "public-key" decode to `Unknown`, and `is_known` is then false. -/
theorem unknown_variant_resilience :
    deserializeCredentialType credTypeUnknownAlgBytes =
      some { algorithm := .Unknown, public_key_type := .PublicKey } ∧
    Ctap2COSEAlgorithmIdentifier.Unknown.code = -999 ∧
    (∀ i : Int, i ≠ -7 → i ≠ -8 → i ≠ -9 → algFromInt i = .Unknown) ∧
    (∀ s : String, s ≠ "public-key" → typeFromString s = .Unknown) ∧
    (∀ c : Ctap2CredentialType,
      c.algorithm = .Unknown ∨ c.public_key_type = .Unknown →
        c.is_known = false) := by
  refine ⟨by decide, by decide, ?_, ?_, ?_⟩
  · intro i h7 h8 h9
    simp [algFromInt, h7, h8, h9]
  · intro s hs
    simp [typeFromString, hs]
  · rintro ⟨a, pt⟩ (h | h) <;> simp at h <;>
      simp [Ctap2CredentialType.is_known, h]

/-- Witness for C6: the concrete decode together with the general clauses
instantiated at alg -42 and type string "unknown". -/
theorem unknown_variant_resilience_witness :
    deserializeCredentialType credTypeUnknownAlgBytes =
      some { algorithm := .Unknown, public_key_type := .PublicKey } ∧
    algFromInt (-42) = .Unknown ∧
    typeFromString "unknown" = .Unknown ∧
    Ctap2CredentialType.is_known
      { algorithm := .Unknown, public_key_type := .PublicKey } = false :=
  ⟨unknown_variant_resilience.1,
   unknown_variant_resilience.2.2.1 (-42) (by decide) (by decide) (by decide),
   unknown_variant_resilience.2.2.2.1 "unknown" (by decide),
   unknown_variant_resilience.2.2.2.2
     { algorithm := .Unknown, public_key_type := .PublicKey } (Or.inl rfl)⟩

lemma events_shape_get_info (chan : ChannelModel)
    (d : List Nat → Option Ctap2GetInfoResponse) :
    (ctap2_get_info chan d).2 = [.send .AuthenticatorGetInfo TIMEOUT_GET_INFO] ∨
    (ctap2_get_info chan d).2 = [.send .AuthenticatorGetInfo TIMEOUT_GET_INFO, .recv TIMEOUT_GET_INFO] := by
  unfold ctap2_get_info
  rcases hs : chan.send_result with es | u <;>
    simp only [hs, cbor_send, cbor_recv]
  · left; rfl
  · rcases hr : chan.recv_result with er | resp <;> simp only [hr]
    · right; rfl
    · right
      repeat' split
      all_goals rfl

lemma events_shape_make_credential (chan : ChannelModel)
    (d : List Nat → Option Ctap2MakeCredentialResponse)
    (r : Ctap2MakeCredentialRequest) (t : Nat) :
    (ctap2_make_credential chan d r t).2 = [.send .AuthenticatorMakeCredential t] ∨
    (ctap2_make_credential chan d r t).2 = [.send .AuthenticatorMakeCredential t, .recv t] := by
  unfold ctap2_make_credential
  rcases hs : chan.send_result with es | u <;>
    simp only [hs, cbor_send, cbor_recv]
  · left; rfl
  · rcases hr : chan.recv_result with er | resp <;> simp only [hr]
    · right; rfl
    · right
      repeat' split
      all_goals rfl

lemma events_shape_get_assertion (chan : ChannelModel)
    (d : List Nat → Option Ctap2GetAssertionResponse)
    (r : Ctap2GetAssertionRequest) (t : Nat) :
    (ctap2_get_assertion chan d r t).2 = [.send .AuthenticatorGetAssertion t] ∨
    (ctap2_get_assertion chan d r t).2 = [.send .AuthenticatorGetAssertion t, .recv t] := by
  unfold ctap2_get_assertion
  rcases hs : chan.send_result with es | u <;>
    simp only [hs, cbor_send, cbor_recv]
  · left; rfl
  · rcases hr : chan.recv_result with er | resp <;> simp only [hr]
    · right; rfl
    · right
      repeat' split
      all_goals rfl

lemma events_shape_get_next_assertion (chan : ChannelModel)
    (d : List Nat → Option Ctap2GetAssertionResponse) (t : Nat) :
    (ctap2_get_next_assertion chan d t).2 = [.send .AuthenticatorGetNextAssertion t] ∨
    (ctap2_get_next_assertion chan d t).2 = [.send .AuthenticatorGetNextAssertion t, .recv t] := by
  unfold ctap2_get_next_assertion
  rcases hs : chan.send_result with es | u <;>
    simp only [hs, cbor_send, cbor_recv]
  · left; rfl
  · rcases hr : chan.recv_result with er | resp <;> simp only [hr]
    · right; rfl
    · right
      repeat' split
      all_goals rfl

lemma events_shape_selection (chan : ChannelModel) (t : Nat) :
    (ctap2_selection chan t).2 = [.send .AuthenticatorSelection t] ∨
    (ctap2_selection chan t).2 = [.send .AuthenticatorSelection t, .recv t] := by
  unfold ctap2_selection
  rcases hs : chan.send_result with es | u <;>
    simp only [hs, cbor_send, cbor_recv]
  · left; rfl
  · rcases hr : chan.recv_result with er | resp <;> simp only [hr]
    · right; rfl
    · right
      repeat' split
      all_goals rfl

lemma events_shape_authenticator_config (chan : ChannelModel)
    (r : Ctap2AuthenticatorConfigRequest) (t : Nat) :
    (ctap2_authenticator_config chan r t).2 = [.send .AuthenticatorConfig t] ∨
    (ctap2_authenticator_config chan r t).2 = [.send .AuthenticatorConfig t, .recv t] := by
  unfold ctap2_authenticator_config
  rcases hs : chan.send_result with es | u <;>
    simp only [hs, cbor_send, cbor_recv]
  · left; rfl
  · rcases hr : chan.recv_result with er | resp <;> simp only [hr]
    · right; rfl
    · right
      repeat' split
      all_goals rfl

lemma events_shape_client_pin (chan : ChannelModel)
    (d : List Nat → Option Ctap2ClientPinResponse)
    (r : Ctap2ClientPinRequest) (t : Nat) :
    (ctap2_client_pin chan d r t).2 = [.send .AuthenticatorClientPin t] ∨
    (ctap2_client_pin chan d r t).2 = [.send .AuthenticatorClientPin t, .recv t] := by
  unfold ctap2_client_pin
  rcases hs : chan.send_result with es | u <;>
    simp only [hs, cbor_send, cbor_recv]
  · left; rfl
  · rcases hr : chan.recv_result with er | resp <;> simp only [hr]
    · right; rfl
    · right
      repeat' split
      all_goals rfl

lemma events_shape_bio_enrollment (chan : ChannelModel)
    (d : List Nat → Option Ctap2BioEnrollmentResponse)
    (r : Ctap2BioEnrollmentRequest) (t : Nat) :
    (ctap2_bio_enrollment chan d r t).2 = [.send .AuthenticatorBioEnrollment t] ∨
    (ctap2_bio_enrollment chan d r t).2 = [.send .AuthenticatorBioEnrollment t, .recv t] := by
  unfold ctap2_bio_enrollment
  rcases hs : chan.send_result with es | u <;>
    simp only [hs, cbor_send, cbor_recv]
  · left; rfl
  · rcases hr : chan.recv_result with er | resp <;> simp only [hr]
    · right; rfl
    · right
      repeat' split
      all_goals rfl

lemma events_shape_credential_management (chan : ChannelModel)
    (d : List Nat → Option Ctap2CredentialManagementResponse)
    (r : Ctap2CredentialManagementRequest) (t : Nat) :
    (ctap2_credential_management chan d r t).2 = [.send .AuthenticatorCredentialManagement t] ∨
    (ctap2_credential_management chan d r t).2 = [.send .AuthenticatorCredentialManagement t, .recv t] := by
  unfold ctap2_credential_management
  rcases hs : chan.send_result with es | u <;>
    simp only [hs, cbor_send, cbor_recv]
  · left; rfl
  · rcases hr : chan.recv_result with er | resp <;> simp only [hr]
    · right; rfl
    · right
      repeat' split
      all_goals rfl

/-- C7: `ctap2_get_info` passes the fixed 250 ms `TIMEOUT_GET_INFO` to
both of its channel calls (`cbor_send`, and `cbor_recv` when reached),
while every other CTAP2 command method passes the caller-supplied timeout
unchanged to both of its channel calls. -/
theorem get_info_fixed_timeout_others_caller_timeout (chan : ChannelModel)
    (t : Nat)
    (dI : List Nat → Option Ctap2GetInfoResponse)
    (dM : List Nat → Option Ctap2MakeCredentialResponse)
    (dA : List Nat → Option Ctap2GetAssertionResponse)
    (dP : List Nat → Option Ctap2ClientPinResponse)
    (dB : List Nat → Option Ctap2BioEnrollmentResponse)
    (dC : List Nat → Option Ctap2CredentialManagementResponse)
    (rM : Ctap2MakeCredentialRequest) (rA : Ctap2GetAssertionRequest)
    (rP : Ctap2ClientPinRequest) (rCfg : Ctap2AuthenticatorConfigRequest)
    (rB : Ctap2BioEnrollmentRequest) (rC : Ctap2CredentialManagementRequest) :
    ((ctap2_get_info chan dI).2 = [.send .AuthenticatorGetInfo 250] ∨
      (ctap2_get_info chan dI).2 =
        [.send .AuthenticatorGetInfo 250, .recv 250]) ∧
    ((ctap2_make_credential chan dM rM t).2 =
        [.send .AuthenticatorMakeCredential t] ∨
      (ctap2_make_credential chan dM rM t).2 =
        [.send .AuthenticatorMakeCredential t, .recv t]) ∧
    ((ctap2_get_assertion chan dA rA t).2 =
        [.send .AuthenticatorGetAssertion t] ∨
      (ctap2_get_assertion chan dA rA t).2 =
        [.send .AuthenticatorGetAssertion t, .recv t]) ∧
    ((ctap2_get_next_assertion chan dA t).2 =
        [.send .AuthenticatorGetNextAssertion t] ∨
      (ctap2_get_next_assertion chan dA t).2 =
        [.send .AuthenticatorGetNextAssertion t, .recv t]) ∧
    ((ctap2_selection chan t).2 = [.send .AuthenticatorSelection t] ∨
      (ctap2_selection chan t).2 = [.send .AuthenticatorSelection t, .recv t]) ∧
    ((ctap2_authenticator_config chan rCfg t).2 =
        [.send .AuthenticatorConfig t] ∨
      (ctap2_authenticator_config chan rCfg t).2 =
        [.send .AuthenticatorConfig t, .recv t]) ∧
    ((ctap2_client_pin chan dP rP t).2 = [.send .AuthenticatorClientPin t] ∨
      (ctap2_client_pin chan dP rP t).2 =
        [.send .AuthenticatorClientPin t, .recv t]) ∧
    ((ctap2_bio_enrollment chan dB rB t).2 =
        [.send .AuthenticatorBioEnrollment t] ∨
      (ctap2_bio_enrollment chan dB rB t).2 =
        [.send .AuthenticatorBioEnrollment t, .recv t]) ∧
    ((ctap2_credential_management chan dC rC t).2 =
        [.send .AuthenticatorCredentialManagement t] ∨
      (ctap2_credential_management chan dC rC t).2 =
        [.send .AuthenticatorCredentialManagement t, .recv t]) :=
  ⟨events_shape_get_info chan dI,
   events_shape_make_credential chan dM rM t,
   events_shape_get_assertion chan dA rA t,
   events_shape_get_next_assertion chan dA t,
   events_shape_selection chan t,
   events_shape_authenticator_config chan rCfg t,
   events_shape_client_pin chan dP rP t,
   events_shape_bio_enrollment chan dB rB t,
   events_shape_credential_management chan dC rC t⟩

/-- C2 (failing case): on a response with non-Ok status 0x31 and no body,
`ctap2_get_next_assertion` does not return `Error::Ctap(0x31)` — it skips
the status check and falls through to the missing-body error — while
`ctap2_get_assertion` on the very same channel state returns
`Error::Ctap(0x31)` as every other command method does. -/
theorem get_next_assertion_skips_status_check :
    (ctap2_get_next_assertion ⟨.ok (), .ok ⟨⟨0x31⟩, none⟩⟩ (fun _ => none) 1000).1 =
      .error (.Platform .InvalidDeviceResponse) ∧
    (ctap2_get_next_assertion ⟨.ok (), .ok ⟨⟨0x31⟩, none⟩⟩ (fun _ => none) 1000).1 ≠
      .error (.Ctap ⟨0x31⟩) ∧
    (ctap2_get_assertion ⟨.ok (), .ok ⟨⟨0x31⟩, none⟩⟩ (fun _ => none) ⟨[]⟩ 1000).1 =
      .error (.Ctap ⟨0x31⟩) := by
  refine ⟨rfl, ?_, rfl⟩
  intro h
  rw [show (ctap2_get_next_assertion ⟨.ok (), .ok ⟨⟨0x31⟩, none⟩⟩
      (fun _ => none) 1000).1 =
      Except.error (Error.Platform .InvalidDeviceResponse) from rfl] at h
  simp at h

/-- C3: for `clientPin`, `bioEnrollment` and `credentialManagement`, an Ok
status with an absent body yields the response type's default value, while
a present body is decoded — a failed decode (and only that) yields
`Platform::InvalidDeviceResponse`, and a successful decode is returned. -/
theorem empty_ok_body_synthesizes_default (t : Nat) (d : List Nat)
    (decP : List Nat → Option Ctap2ClientPinResponse)
    (decB : List Nat → Option Ctap2BioEnrollmentResponse)
    (decC : List Nat → Option Ctap2CredentialManagementResponse)
    (rP : Ctap2ClientPinRequest) (rB : Ctap2BioEnrollmentRequest)
    (rC : Ctap2CredentialManagementRequest) :
    ((ctap2_client_pin ⟨.ok (), .ok ⟨CtapError.Ok, none⟩⟩ decP rP t).1 =
        .ok Ctap2ClientPinResponse.default) ∧
    ((ctap2_bio_enrollment ⟨.ok (), .ok ⟨CtapError.Ok, none⟩⟩ decB rB t).1 =
        .ok Ctap2BioEnrollmentResponse.default) ∧
    ((ctap2_credential_management ⟨.ok (), .ok ⟨CtapError.Ok, none⟩⟩ decC rC t).1 =
        .ok Ctap2CredentialManagementResponse.default) ∧
    (decP d = none →
      (ctap2_client_pin ⟨.ok (), .ok ⟨CtapError.Ok, some d⟩⟩ decP rP t).1 =
        .error (.Platform .InvalidDeviceResponse)) ∧
    (∀ r, decP d = some r →
      (ctap2_client_pin ⟨.ok (), .ok ⟨CtapError.Ok, some d⟩⟩ decP rP t).1 = .ok r) ∧
    (decB d = none →
      (ctap2_bio_enrollment ⟨.ok (), .ok ⟨CtapError.Ok, some d⟩⟩ decB rB t).1 =
        .error (.Platform .InvalidDeviceResponse)) ∧
    (∀ r, decB d = some r →
      (ctap2_bio_enrollment ⟨.ok (), .ok ⟨CtapError.Ok, some d⟩⟩ decB rB t).1 =
        .ok r) ∧
    (decC d = none →
      (ctap2_credential_management ⟨.ok (), .ok ⟨CtapError.Ok, some d⟩⟩ decC rC t).1 =
        .error (.Platform .InvalidDeviceResponse)) ∧
    (∀ r, decC d = some r →
      (ctap2_credential_management ⟨.ok (), .ok ⟨CtapError.Ok, some d⟩⟩ decC rC t).1 =
        .ok r) := by
  exact ⟨by simp [ctap2_client_pin, cbor_send, cbor_recv],
    by simp [ctap2_bio_enrollment, cbor_send, cbor_recv],
    by simp [ctap2_credential_management, cbor_send, cbor_recv],
    fun h => by simp [ctap2_client_pin, cbor_send, cbor_recv, h],
    fun r h => by simp [ctap2_client_pin, cbor_send, cbor_recv, h],
    fun h => by simp [ctap2_bio_enrollment, cbor_send, cbor_recv, h],
    fun r h => by simp [ctap2_bio_enrollment, cbor_send, cbor_recv, h],
    fun h => by simp [ctap2_credential_management, cbor_send, cbor_recv, h],
    fun r h => by simp [ctap2_credential_management, cbor_send, cbor_recv, h]⟩

/-- Witness for C3: a concrete channel whose Ok response has no body
yields the default client-pin response, and a malformed present body
yields the decode error. -/
theorem empty_ok_body_synthesizes_default_witness :
    (ctap2_client_pin ⟨.ok (), .ok ⟨CtapError.Ok, none⟩⟩ (fun _ => none) ⟨[]⟩ 100).1 =
        .ok Ctap2ClientPinResponse.default ∧
    (ctap2_client_pin ⟨.ok (), .ok ⟨CtapError.Ok, some [1]⟩⟩ (fun _ => none) ⟨[]⟩
        100).1 =
      .error (.Platform .InvalidDeviceResponse) :=
  ⟨(empty_ok_body_synthesizes_default 100 [1] (fun _ => none) (fun _ => none)
      (fun _ => none) ⟨[]⟩ ⟨[]⟩ ⟨[]⟩).1,
   (empty_ok_body_synthesizes_default 100 [1] (fun _ => none) (fun _ => none)
      (fun _ => none) ⟨[]⟩ ⟨[]⟩ ⟨[]⟩).2.2.2.1 rfl⟩

/-- The sixteen lowercase hexadecimal digit characters. -/
def lowercaseHexAlphabet : List Char :=
  "0123456789abcdef".data

lemma hexDigit_mem_fin : ∀ n : Fin 16, hexDigit n.val ∈ lowercaseHexAlphabet := by
  decide

lemma hexDigit_mem_of_lt (n : Nat) (h : n < 16) :
    hexDigit n ∈ lowercaseHexAlphabet :=
  hexDigit_mem_fin ⟨n, h⟩

lemma hexEncode_data (l : List Nat) (hb : ∀ b ∈ l, b < 256) :
    (hexEncode l).data =
      l.flatMap (fun b => [hexDigit (b / 16), hexDigit (b % 16)]) := by
  show l.flatMap (fun b => [hexDigit (b / 16 % 16), hexDigit (b % 16)]) = _
  revert hb
  induction l with
  | nil => intro _; rfl
  | cons b tl ih =>
    intro hb
    have h1 : b / 16 % 16 = b / 16 := by
      have hlt : b < 256 := hb b (by simp)
      omega
    simp only [List.flatMap_cons]
    rw [h1, ih (fun x hx => hb x (by simp [hx]))]

lemma hexEncode_length (l : List Nat) : (hexEncode l).length = 2 * l.length := by
  show (l.flatMap (fun b => [hexDigit (b / 16 % 16), hexDigit (b % 16)])).length = _
  induction l with
  | nil => rfl
  | cons b tl ih =>
    rw [List.flatMap_cons, List.length_append, ih]
    simp only [List.length_cons, List.length_nil]
    omega

lemma hexEncode_chars (l : List Nat) :
    ∀ c ∈ (hexEncode l).data, c ∈ lowercaseHexAlphabet := by
  show ∀ c ∈ l.flatMap (fun b => [hexDigit (b / 16 % 16), hexDigit (b % 16)]), _
  induction l with
  | nil => intro c hc; simp at hc
  | cons b tl ih =>
    intro c hc
    simp only [List.flatMap_cons, List.mem_append, List.mem_cons,
      List.not_mem_nil, or_false] at hc
    rcases hc with (rfl | rfl) | hc
    · exact hexDigit_mem_of_lt _ (Nat.mod_lt _ (by decide))
    · exact hexDigit_mem_of_lt _ (Nat.mod_lt _ (by decide))
    · exact ih c (by simpa using hc)

/-- C8: the known-device id derived from a linking blob is exactly the
byte-ordered, high-nibble-first hexadecimal rendering of
`authenticator_public_key`: two digits per byte (so twice as many
characters as bytes), every character a lowercase hex digit. -/
theorem cable_device_id_is_lowercase_hex (li : CableLinkingInfo)
    (hb : ∀ b ∈ li.authenticator_public_key, b < 256) :
    (CableKnownDeviceId.fromLinkingInfo li).data =
      li.authenticator_public_key.flatMap
        (fun b => [hexDigit (b / 16), hexDigit (b % 16)]) ∧
    (CableKnownDeviceId.fromLinkingInfo li).length =
      2 * li.authenticator_public_key.length ∧
    ∀ c ∈ (CableKnownDeviceId.fromLinkingInfo li).data, c ∈ lowercaseHexAlphabet :=
  ⟨hexEncode_data li.authenticator_public_key hb,
   hexEncode_length li.authenticator_public_key,
   hexEncode_chars li.authenticator_public_key⟩

/-- Witness for C8 at a two-byte public key `[0x12, 0xab]`. -/
theorem cable_device_id_is_lowercase_hex_witness :
    (CableKnownDeviceId.fromLinkingInfo
        ⟨[], [], [], [0x12, 0xab], "phone"⟩).data =
      [0x12, 0xab].flatMap (fun b => [hexDigit (b / 16), hexDigit (b % 16)]) :=
  (cable_device_id_is_lowercase_hex ⟨[], [], [], [0x12, 0xab], "phone"⟩
    (by decide)).1

lemma filter_other_key (l : List (String × CableKnownDeviceInfo))
    (id id2 : String) (h : id2 ≠ id) :
    (l.filter (fun e => e.1 != id)).filter (fun e => e.1 == id2) =
      l.filter (fun e => e.1 == id2) := by
  induction l with
  | nil => rfl
  | cons a tl ih =>
    by_cases ha : a.1 = id <;> by_cases ha2 : a.1 = id2 <;>
      simp_all [List.filter_cons, bne]

/-- C10: the ephemeral store behaves as a map — `put` makes the pair
visible in `list_all`, a second `put` for the same id overwrites, `delete`
removes every pair with that id, and both operations leave the entries of
every other id untouched. -/
theorem ephemeral_store_map_semantics (s : EphemeralDeviceInfoStore)
    (id id2 : String) (info info2 : CableKnownDeviceInfo) (hne : id2 ≠ id) :
    (id, info) ∈ (s.put_known_device id info).list_all ∧
    (∀ j, (id, j) ∈
        ((s.put_known_device id info).put_known_device id info2).list_all ↔
      j = info2) ∧
    (∀ j, (id, j) ∉ (s.delete_known_device id).list_all) ∧
    ((s.put_known_device id info).list_all.filter (fun e => e.1 == id2) =
      s.list_all.filter (fun e => e.1 == id2)) ∧
    ((s.delete_known_device id).list_all.filter (fun e => e.1 == id2) =
      s.list_all.filter (fun e => e.1 == id2)) := by
  have hid : (id == id2) = false := beq_eq_false_iff_ne.mpr (Ne.symm hne)
  exact ⟨
    by simp [EphemeralDeviceInfoStore.put_known_device,
      EphemeralDeviceInfoStore.list_all],
    fun j => by
      simp [EphemeralDeviceInfoStore.put_known_device,
        EphemeralDeviceInfoStore.list_all, List.mem_filter],
    fun j => by
      simp [EphemeralDeviceInfoStore.delete_known_device,
        EphemeralDeviceInfoStore.list_all, List.mem_filter],
    by simp [EphemeralDeviceInfoStore.put_known_device,
      EphemeralDeviceInfoStore.list_all, List.filter_cons, hid,
      filter_other_key s.known_devices id id2 hne],
    filter_other_key s.known_devices id id2 hne⟩

/-- Witness for C10: putting then listing on a concrete store. -/
theorem ephemeral_store_map_semantics_witness :
    ("id1", CableKnownDeviceInfo.mk [] [] [] [] "" "") ∈
      (EphemeralDeviceInfoStore.new.put_known_device "id1"
        (CableKnownDeviceInfo.mk [] [] [] [] "" "")).list_all :=
  (ephemeral_store_map_semantics EphemeralDeviceInfoStore.new "id1" "id2"
    (CableKnownDeviceInfo.mk [] [] [] [] "" "")
    (CableKnownDeviceInfo.mk [] [] [] [] "" "") (by decide)).1

end LibWebAuthn
